import Mathlib

/-!
Verification of the Police-Raider crime-data proxy: a shallow embedding of
the request validation, rate-limiting, client-selection, retry and mock
backend pipeline, translated from the JavaScript sources
(`src/utils/request.js`, `src/adapters/index.js`,
`src/adapters/rapidapi_client_mock.js`, `src/middleware/validation.js`,
`src/middleware/rateLimiter.js`, `src/routes/crime.js`,
`src/controllers/crimeController.js`, `src/middleware/errorHandler.js`).

Strings are modelled as Lean `String`s (all data involved is ASCII, where
JavaScript UTF-16 length, `toLowerCase` and Lean `String.length`,
`Char.toLower` agree).  Nullable JavaScript values are `Option`s, thrown
errors are `Except`, and the asynchronous simulated latencies (pure
`setTimeout` waits that do not affect the returned values) are elided.
-/

namespace PoliceRaider

/-! ### Generic string machinery

`listStarts pat s` decides whether `pat` is a prefix of `s`;
`subOcc pat s` decides whether `pat` occurs as a contiguous substring of
`s`.  `jsIncludes s pat` is JavaScript's `s.includes(pat)`. -/
def listStarts : List Char → List Char → Bool
  | [], _ => true
  | _ :: _, [] => false
  | p :: ps, c :: cs => p = c && listStarts ps cs

def subOcc (pat : List Char) : List Char → Bool
  | [] => listStarts pat []
  | c :: cs => listStarts pat (c :: cs) || subOcc pat cs

def jsIncludes (s pat : String) : Bool :=
  subOcc pat.data s.data

/-- Specification-side notion of substring containment, independent of the
scanning code: `pat` occurs contiguously inside `s`. -/
def HasSubstr (s pat : String) : Prop :=
  ∃ l r, s.data = l ++ pat.data ++ r

/-! ### `RequestUtils.validateApiKey` (src/utils/request.js)

```js
static validateApiKey (key) {
  if (!key) return false
  return key && key.length > 10 && !key.includes('your_') && !key.includes('example')
}
```

`key` is nullable, so it is an `Option String`; `!key` is true exactly for
`null`/`undefined`/the empty string. -/
def validateApiKey (key : Option String) : Bool :=
  match key with
  | none => false
  | some k =>
    if k = "" then false
    else decide (k.length > 10) && !(jsIncludes k "your_") && !(jsIncludes k "example")

/-! ### `ApiClientFactory` (src/adapters/index.js)

The factory reads `config.policeRaiderMode`, `config.apis.rapidApiKey` and
`config.nodeEnv`; the configuration is passed here explicitly.  The source
returns a client object on every path (it never throws), which the total
Lean function mirrors. -/
inductive Backend where
  | mock
  | real
deriving DecidableEq, Repr

structure FactoryConfig where
  mode : String
  rapidApiKey : Option String
  nodeEnv : String
deriving Repr

def createRapidApiClient (cfg : FactoryConfig) : Backend :=
  if cfg.mode = "mock" || !(validateApiKey cfg.rapidApiKey) || cfg.nodeEnv = "test" then
    Backend.mock
  else if cfg.mode = "staging" || cfg.mode = "prod" then
    Backend.real
  else
    Backend.mock

/-- `ApiClientFactory.getClientInfo().clientType` (src/adapters/index.js):
`(mode === 'mock' || !hasValidApiKey || config.nodeEnv === 'test') ? 'mock' : 'real'`. -/
def clientInfoClientType (cfg : FactoryConfig) : String :=
  if cfg.mode = "mock" || !(validateApiKey cfg.rapidApiKey) || cfg.nodeEnv = "test" then
    "mock"
  else
    "real"

/-! ### Mock backend (src/adapters/rapidapi_client_mock.js)

The constructor installs a fixed in-memory dataset: three search records
under `mockData.crimeData` and two detail records under
`mockData.incidentDetails` (keys `INC-001` and `INC-002`).  The simulated
latency (`setTimeout` with a random delay) does not influence the returned
values and is elided. -/
structure CrimeRecord where
  id : String
  type : String
  location : String
  date : String
  severity : String
  status : String
  description : String
deriving DecidableEq, Repr

def mockCrimeData : List CrimeRecord :=
  [ { id := "INC-001", type := "Theft", location := "Downtown Area",
      date := "2025-09-10", severity := "Medium", status := "Under Investigation",
      description := "Reported theft of personal property" },
    { id := "INC-002", type := "Vandalism", location := "Park District",
      date := "2025-09-09", severity := "Low", status := "Closed",
      description := "Graffiti on public property" },
    { id := "INC-003", type := "Assault", location := "Commercial District",
      date := "2025-09-08", severity := "High", status := "Active",
      description := "Physical altercation between individuals" } ]

structure IncidentDetail where
  id : String
  type : String
  location : String
  lat : ℚ
  lng : ℚ
  date : String
  time : String
  severity : String
  status : String
  description : String
  officerBadge : String
  caseNumber : String
  witnesses : Nat
  evidence : List String
deriving DecidableEq, Repr

def inc001Detail : IncidentDetail :=
  { id := "INC-001", type := "Theft", location := "Downtown Area",
    lat := 40.7128, lng := -74.0060, date := "2025-09-10", time := "14:30",
    severity := "Medium", status := "Under Investigation",
    description := "Reported theft of personal property from parked vehicle",
    officerBadge := "BADGE-456", caseNumber := "CASE-2025-001234",
    witnesses := 2, evidence := ["Security camera footage", "Witness statements"] }

def inc002Detail : IncidentDetail :=
  { id := "INC-002", type := "Vandalism", location := "Park District",
    lat := 40.7589, lng := -73.9851, date := "2025-09-09", time := "22:15",
    severity := "Low", status := "Closed",
    description := "Graffiti on public property - park restroom facility",
    officerBadge := "BADGE-789", caseNumber := "CASE-2025-001233",
    witnesses := 0, evidence := ["Photographs", "Damage assessment"] }

/-- Own properties of the `mockData.incidentDetails` object literal. -/
def lookupOwn (id : String) : Option IncidentDetail :=
  if id = "INC-001" then some inc001Detail
  else if id = "INC-002" then some inc002Detail
  else none

/-- Property names inherited from `Object.prototype`.  The source reads
`this.mockData.incidentDetails[incidentId]`, and JavaScript bracket lookup
on an object literal also finds these inherited properties (whose values
are functions or a prototype object, all truthy), not only the literal's
own keys. -/
def objectPrototypeProps : List String :=
  [ "constructor", "hasOwnProperty", "isPrototypeOf", "propertyIsEnumerable",
    "toLocaleString", "toString", "valueOf", "__proto__",
    "__defineGetter__", "__defineSetter__", "__lookupGetter__", "__lookupSetter__" ]

/-- Value bound to `details` in `getIncidentDetails`: either an own detail
record or a truthy value inherited from `Object.prototype`. -/
inductive DetailData where
  | record (d : IncidentDetail)
  | inheritedBuiltin (propName : String)
deriving DecidableEq, Repr

structure DetailResult where
  success : Bool
  data : DetailData
  mock : Bool
deriving DecidableEq, Repr

/-- `RapidApiClientMock.getIncidentDetails`: looks `incidentId` up in the
`incidentDetails` object (own keys first, then the prototype chain); a
falsy result — i.e. absence — throws `Incident $id not found`; a truthy
result is wrapped as `success/data/mock`. -/
def getIncidentDetails (incidentId : String) : Except String DetailResult :=
  match lookupOwn incidentId with
  | some d => Except.ok { success := true, data := DetailData.record d, mock := true }
  | none =>
    if incidentId ∈ objectPrototypeProps then
      Except.ok { success := true, data := DetailData.inheritedBuiltin incidentId, mock := true }
    else
      Except.error ("Incident " ++ incidentId ++ " not found")

/-! ### `RapidApiClientMock.searchCrimeData` -/
def toLowerStr (s : String) : String :=
  String.mk (s.data.map Char.toLower)

/-- JavaScript `haystack.toLowerCase().includes(needle.toLowerCase())`. -/
def ciIncludes (s pat : String) : Bool :=
  jsIncludes (toLowerStr s) (toLowerStr pat)

structure SearchResult where
  success : Bool
  results : List CrimeRecord
  total : Nat
  mock : Bool
deriving DecidableEq, Repr

/-- `RapidApiClientMock.searchCrimeData(location, crimeType = null)`: the
guards `if (location)` / `if (crimeType)` skip the corresponding filter on
a missing or empty (falsy) argument. -/
def searchCrimeData (location : Option String) (crimeType : Option String) : SearchResult :=
  let r0 := mockCrimeData
  let r1 := match location with
    | none => r0
    | some loc => if loc = "" then r0 else r0.filter (fun item => ciIncludes item.location loc)
  let r2 := match crimeType with
    | none => r1
    | some ct => if ct = "" then r1 else r1.filter (fun item => ciIncludes item.type ct)
  { success := true, results := r2, total := r2.length, mock := true }

/-! ### Incident-detail controller and error handler
(src/controllers/crimeController.js, src/middleware/errorHandler.js) -/
structure JsError where
  name : String
  message : String
  code : Option String
deriving DecidableEq, Repr

/-- Status and message chosen by the fallback error handler
(src/middleware/errorHandler.js) for an error forwarded with `next()`. -/
def errorHandlerStatus (e : JsError) : Nat × String :=
  if e.name = "ValidationError" then (400, "Validation error")
  else if e.name = "UnauthorizedError" then (401, "Unauthorized")
  else if e.name = "ForbiddenError" then (403, "Forbidden")
  else if jsIncludes e.message "not found" then (404, "Resource not found")
  else if e.code = some "ECONNREFUSED" || e.code = some "ENOTFOUND" then
    (503, "Service temporarily unavailable")
  else (500, "Internal server error")

structure IncidentHttpResponse where
  status : Nat
  errorMsg : Option String
  data : Option DetailResult
deriving DecidableEq, Repr

/-- `CrimeController.getIncidentDetails` response shaping: a successful
backend result is wrapped (`success:true, data: details, meta` — the
timestamp/clientInfo meta is elided); a thrown error whose message contains
`not found` is mapped to 404 with body error `Incident not found`; any
other error is forwarded to the fallback error handler.  The mock backend
throws plain `Error`s (name `Error`, no `code`). -/
def controllerOnDetailOutcome (outcome : Except String DetailResult) : IncidentHttpResponse :=
  match outcome with
  | Except.ok d => { status := 200, errorMsg := none, data := some d }
  | Except.error msg =>
    if jsIncludes msg "not found" then
      { status := 404, errorMsg := some "Incident not found", data := none }
    else
      let sm := errorHandlerStatus { name := "Error", message := msg, code := none }
      { status := sm.1, errorMsg := some sm.2, data := none }

/-- The incident-detail operation in mock mode: mock backend composed with
the controller's response shaping. -/
def incidentPipeline (incidentId : String) : IncidentHttpResponse :=
  controllerOnDetailOutcome (getIncidentDetails incidentId)

/-! ### `RequestUtils.sanitizeInput` (src/utils/request.js)

```js
static sanitizeInput (input) {
  if (typeof input !== 'string') return input
  return input
    .replace(/[<>]/g, '')
    .replace(/javascript:/gi, '')
    .replace(/on\w+=/gi, '')
    .trim()
}
```

Each `replace` with a global regex removes the leftmost match, then
continues scanning after it (removed fragments are never rescanned
together with earlier kept characters).  The scanners below are written
with an explicit fuel argument (one unit per consumed input character, so
`fuel = length` always suffices) to keep them kernel-computable. -/
def isAngle (c : Char) : Bool :=
  c = '<' || c = '>'

def stripAngle (s : List Char) : List Char :=
  s.filter (fun c => !(isAngle c))

/-- Case-insensitive prefix test (the `i` regex flag): `pat` matches the
beginning of `s` up to `Char.toLower`. -/
def ciStarts : List Char → List Char → Bool
  | [], _ => true
  | _ :: _, [] => false
  | p :: ps, c :: cs => (c.toLower = p.toLower) && ciStarts ps cs

def jsPat : List Char :=
  "javascript:".data

def stripJSF : Nat → List Char → List Char
  | 0, s => s
  | _ + 1, [] => []
  | f + 1, c :: cs =>
    if ciStarts jsPat (c :: cs) then stripJSF f (List.drop (jsPat.length - 1) cs)
    else c :: stripJSF f cs

/-- `input.replace(/javascript:/gi, '')`. -/
def stripJS (s : List Char) : List Char :=
  stripJSF s.length s

/-- Whether a case-insensitive occurrence of `javascript:` starts anywhere
in `s`. -/
def hasJS : List Char → Bool
  | [] => false
  | c :: cs => ciStarts jsPat (c :: cs) || hasJS cs

/-- The regex word class `\w`, i.e. `[A-Za-z0-9_]`. -/
def isWordChar (c : Char) : Bool :=
  ('a' ≤ c && c ≤ 'z') || ('A' ≤ c && c ≤ 'Z') || ('0' ≤ c && c ≤ '9') || c = '_'

/-- Match of `/on\w+=/i` at the head of `s`: `o`, `n` (case-insensitive),
a non-empty maximal run of word characters, then `=` (since `=` is not a
word character, the greedy `\w+` needs no backtracking).  Returns the
remainder after the match. -/
def matchOn (s : List Char) : Option (List Char) :=
  match s with
  | c1 :: c2 :: rest =>
    if c1.toLower = 'o' && c2.toLower = 'n' then
      if (rest.takeWhile isWordChar).isEmpty then none
      else
        match rest.dropWhile isWordChar with
        | '=' :: tail => some tail
        | _ => none
    else none
  | _ => none

def stripHandlerF : Nat → List Char → List Char
  | 0, s => s
  | _ + 1, [] => []
  | f + 1, c :: cs =>
    match matchOn (c :: cs) with
    | some rest => stripHandlerF f rest
    | none => c :: stripHandlerF f cs

/-- `input.replace(/on\w+=/gi, '')`. -/
def stripHandler (s : List Char) : List Char :=
  stripHandlerF s.length s

/-- Whether `/on\w+=/i` matches anywhere in `s`. -/
def hasHandler : List Char → Bool
  | [] => false
  | c :: cs => (matchOn (c :: cs)).isSome || hasHandler cs

/-- The JavaScript `String.prototype.trim` whitespace class: WhiteSpace and
LineTerminator code points. -/
def isJsWs (c : Char) : Bool :=
  c.toNat = 9 || c.toNat = 10 || c.toNat = 11 || c.toNat = 12 || c.toNat = 13 ||
    c.toNat = 32 || c.toNat = 160 || c.toNat = 5760 ||
    (8192 ≤ c.toNat && c.toNat ≤ 8202) || c.toNat = 8232 || c.toNat = 8233 ||
    c.toNat = 8239 || c.toNat = 8287 || c.toNat = 12288 || c.toNat = 65279

/-- `.trim()`: drop leading then trailing whitespace. -/
def trimList (s : List Char) : List Char :=
  ((s.dropWhile isJsWs).reverse.dropWhile isJsWs).reverse

def sanitizeList (s : List Char) : List Char :=
  trimList (stripHandler (stripJS (stripAngle s)))

/-- `RequestUtils.sanitizeInput` on string input (non-string input passes
through unchanged in the source and is out of scope here). -/
def sanitizeInput (s : String) : String :=
  String.mk (sanitizeList s.data)

/-! ### `RequestUtils.requestWithRetry` (src/utils/request.js)

The loop runs `attempt = 0 .. maxRetries`; each attempt performs
`await axios(url, requestOptions)`.  Here `outcome n` is the result of the
`n`-th attempt (success value or thrown error), and `jit n` abstracts the
`Math.random() * 100` jitter drawn before the `n`-th retry sleep.  Source
defaults: `maxRetries = 3`, `baseDelay = 200`. -/
structure AxiosOptions where
  timeout : Option Nat
deriving DecidableEq, Repr

/-- The per-attempt options `{ timeout: 8000, ...options }`: the object
spread lets a caller-supplied timeout override the 8000ms default. -/
def requestOptions (options : AxiosOptions) : AxiosOptions :=
  { timeout := some (options.timeout.getD 8000) }

/-- `Math.min(baseDelay * Math.pow(2, attempt) + jitter, maxDelay)` with
`maxDelay = 3000`. -/
def backoffDelay (baseDelay : ℚ) (attempt : Nat) (jitter : ℚ) : ℚ :=
  min (baseDelay * 2 ^ attempt + jitter) 3000

/-- The retry loop with `remaining` retries still allowed after the current
`attempt`; returns the final outcome, the number of attempts performed and
the list of delays slept (in order).  With `remaining = 0` a failure is
rethrown without sleeping (`if (attempt === maxRetries) throw error`). -/
def runRetry {E R : Type} (outcome : Nat → Except E R) (jit : Nat → ℚ) (baseDelay : ℚ) :
    Nat → Nat → Except E R × Nat × List ℚ
  | 0, attempt => (outcome attempt, 1, [])
  | remaining + 1, attempt =>
    match outcome attempt with
    | Except.ok r => (Except.ok r, 1, [])
    | Except.error _ =>
      let rest := runRetry outcome jit baseDelay remaining (attempt + 1)
      (rest.1, rest.2.1 + 1, backoffDelay baseDelay attempt (jit attempt) :: rest.2.2)

def requestWithRetry {E R : Type} (outcome : Nat → Except E R) (jit : Nat → ℚ)
    (maxRetries : Nat) (baseDelay : ℚ) : Except E R × Nat × List ℚ :=
  runRetry outcome jit baseDelay maxRetries 0

/-- Outcome sequence used to witness the retry contract: the first two
attempts fail, the third succeeds. -/
def flakyOutcome : Nat → Except String String :=
  fun n => if n < 2 then Except.error "fail" else Except.ok "resp"

/-! ### Rate limiting (src/middleware/rateLimiter.js)

`createRateLimiter(windowMs, max)` configures the `express-rate-limit`
package with a 429 handler whose body carries
`error: 'Too many requests from this IP'` and
`retryAfter: Math.ceil(windowMs / 1000)`.  The three tiers share the
configured window; the search and detail tiers use `Math.floor(max / 2)`
and `Math.floor(max / 4)`. -/
structure RateLimitConfig where
  windowMs : Nat
  maxRequests : Nat
deriving DecidableEq, Repr

structure TierConfigs where
  general : RateLimitConfig
  search : RateLimitConfig
  details : RateLimitConfig
deriving DecidableEq, Repr

/-- The `rateLimiters` object: `general` with the configured defaults,
`search` with half and `details` with a quarter of the maximum
(`Math.floor` is Nat division). -/
def rateLimiters (cfg : RateLimitConfig) : TierConfigs :=
  { general := { windowMs := cfg.windowMs, maxRequests := cfg.maxRequests },
    search := { windowMs := cfg.windowMs, maxRequests := cfg.maxRequests / 2 },
    details := { windowMs := cfg.windowMs, maxRequests := cfg.maxRequests / 4 } }

/-- Modelled from the spec: the fixed-window counter of the external
`express-rate-limit` dependency (its source is not part of this
repository).  Per (tier, IP) a `{count, windowStart}` record is created
lazily on the first request, reset when the current window has expired,
and incremented by every request reaching the gate. -/
structure Counter where
  count : Nat
  windowStart : Nat
deriving DecidableEq, Repr

def touchCounter (windowMs : Nat) (now : Nat) (c : Option Counter) : Counter :=
  let c0 : Counter := match c with
    | none => { count := 0, windowStart := now }
    | some c =>
      if windowMs ≤ now - c.windowStart then { count := 0, windowStart := now } else c
  { count := c0.count + 1, windowStart := c0.windowStart }

/-- `Math.ceil(windowMs / 1000)`, the `retryAfter` seconds of the 429
response body. -/
def retryAfterOf (windowMs : Nat) : Nat :=
  (windowMs + 999) / 1000

/-- Modelled from the spec: the admission decision after the counter
increment — `none` admits, `some retryAfter` rejects with status 429 and
the handler's body. -/
def limiterDecision (maxReq : Nat) (windowMs : Nat) (c : Counter) : Option Nat :=
  if maxReq < c.count then some (retryAfterOf windowMs) else none

/-- A sequence of requests from one IP against one tier: threads the
(lazily created) counter through `touchCounter` and records each
admission decision. -/
def runLimiter (maxReq windowMs : Nat) : List Nat → Option Counter → Option Counter × List (Option Nat)
  | [], st => (st, [])
  | t :: ts, st =>
    let c := touchCounter windowMs t st
    let rest := runLimiter maxReq windowMs ts (some c)
    (rest.1, limiterDecision maxReq windowMs c :: rest.2)

/-! ### Validation for `GET /api/crime/search`
(src/routes/crime.js, src/middleware/validation.js)

The route declares `query('location').isLength(2..100).matches(charset)`
and `query('crimeType').optional().isLength(2..50).matches(charset)`; the
`express-validator` dependency (modelled from the spec: its source is not
part of the repository) runs every chained check — a missing non-optional
field fails its checks, `.optional()` skips a missing field — and
`validationMiddleware` turns a non-empty error list into a 400 response
with body `error: 'Validation failed'` and the per-check details. -/
/-- The regex whitespace class `\s` (same code points as the trim class). -/
def isLocationChar (c : Char) : Bool :=
  ('a' ≤ c && c ≤ 'z') || ('A' ≤ c && c ≤ 'Z') || ('0' ≤ c && c ≤ '9') ||
    isJsWs c || c = ',' || c = '.' || c = '-'

def isCrimeTypeChar (c : Char) : Bool :=
  ('a' ≤ c && c ≤ 'z') || ('A' ≤ c && c ≤ 'Z') || isJsWs c || c = '-'

structure FieldError where
  field : String
  message : String
deriving DecidableEq, Repr

def searchValidationErrors (location : Option String) (crimeType : Option String) :
    List FieldError :=
  (match location with
    | none =>
      [{ field := "location", message := "Location must be between 2 and 100 characters" },
       { field := "location", message := "Location contains invalid characters" }]
    | some loc =>
      (if 2 ≤ loc.length && loc.length ≤ 100 then []
       else [{ field := "location",
               message := "Location must be between 2 and 100 characters" }]) ++
      (if 0 < loc.length && loc.data.all isLocationChar then []
       else [{ field := "location",
               message := "Location contains invalid characters" }])) ++
  (match crimeType with
    | none => []
    | some ct =>
      (if 2 ≤ ct.length && ct.length ≤ 50 then []
       else [{ field := "crimeType",
               message := "Crime type must be between 2 and 50 characters" }]) ++
      (if 0 < ct.length && ct.data.all isCrimeTypeChar then []
       else [{ field := "crimeType",
               message := "Crime type contains invalid characters" }]))

structure SearchRequest where
  ip : String
  location : Option String
  crimeType : Option String

inductive SearchResponse where
  | rateLimited (retryAfter : Nat)
  | validationFailed (details : List FieldError)
  | missingLocation
  | ok (result : SearchResult)
deriving DecidableEq, Repr

def statusOf : SearchResponse → Nat
  | SearchResponse.rateLimited _ => 429
  | SearchResponse.validationFailed _ => 400
  | SearchResponse.missingLocation => 400
  | SearchResponse.ok _ => 200

/-- The `error` field of the JSON body produced for each response. -/
def bodyErrorOf : SearchResponse → Option String
  | SearchResponse.rateLimited _ => some "Too many requests from this IP"
  | SearchResponse.validationFailed _ => some "Validation failed"
  | SearchResponse.missingLocation => some "Location parameter is required"
  | SearchResponse.ok _ => none

structure SearchStep where
  response : SearchResponse
  generalStore : String → Option Counter
  searchStore : String → Option Counter
  backendCalled : Bool

/-- The middleware chain for `GET /api/crime/search` in wiring order:
`src/server.js` mounts `rateLimiters.general` with `app.use` before the
routes, and `src/routes/crime.js` then applies `rateLimiters.search`, the
validator chain, `validationMiddleware` and finally
`CrimeController.search` (which in mock mode calls the mock backend).  A
rejection at any stage short-circuits: nothing after it runs, but every
stage already passed keeps its effect — in particular both rate-limit
counters are touched before validation runs. -/
def searchPipeline (cfg : RateLimitConfig) (now : Nat) (req : SearchRequest)
    (generalStore searchStore : String → Option Counter) : SearchStep :=
  let cg := touchCounter cfg.windowMs now (generalStore req.ip)
  let generalStore1 := fun ip => if ip = req.ip then some cg else generalStore ip
  match limiterDecision (rateLimiters cfg).general.maxRequests cfg.windowMs cg with
  | some ra =>
    { response := SearchResponse.rateLimited ra, generalStore := generalStore1,
      searchStore := searchStore, backendCalled := false }
  | none =>
    let cs := touchCounter cfg.windowMs now (searchStore req.ip)
    let searchStore1 := fun ip => if ip = req.ip then some cs else searchStore ip
    match limiterDecision (rateLimiters cfg).search.maxRequests cfg.windowMs cs with
    | some ra =>
      { response := SearchResponse.rateLimited ra, generalStore := generalStore1,
        searchStore := searchStore1, backendCalled := false }
    | none =>
      let errs := searchValidationErrors req.location req.crimeType
      if errs = [] then
        match req.location with
        | none =>
          { response := SearchResponse.missingLocation, generalStore := generalStore1,
            searchStore := searchStore1, backendCalled := false }
        | some loc =>
          { response := SearchResponse.ok (searchCrimeData (some loc) req.crimeType),
            generalStore := generalStore1, searchStore := searchStore1,
            backendCalled := true }
      else
        { response := SearchResponse.validationFailed errs, generalStore := generalStore1,
          searchStore := searchStore1, backendCalled := false }

theorem listStarts_iff (pat s : List Char) :
    listStarts pat s = true ↔ ∃ r, s = pat ++ r := by
  induction pat generalizing s with
  | nil =>
    simp [listStarts]
  | cons p ps ih =>
    cases s with
    | nil =>
      simp [listStarts]
    | cons c cs =>
      simp only [listStarts, Bool.and_eq_true, decide_eq_true_eq, ih,
        List.cons_append, List.cons.injEq]
      constructor
      · rintro ⟨rfl, r, rfl⟩
        exact ⟨r, rfl, rfl⟩
      · rintro ⟨r, rfl, rfl⟩
        exact ⟨rfl, r, rfl⟩

theorem subOcc_iff (pat s : List Char) :
    subOcc pat s = true ↔ ∃ l r, s = l ++ pat ++ r := by
  induction s with
  | nil =>
    simp only [subOcc, listStarts_iff]
    constructor
    · rintro ⟨r, hr⟩
      exact ⟨[], r, by simpa using hr⟩
    · rintro ⟨l, r, hl⟩
      have h2 := hl.symm
      simp only [List.append_eq_nil] at h2
      exact ⟨[], by simp [h2.1.2]⟩
  | cons c cs ih =>
    simp only [subOcc, Bool.or_eq_true, listStarts_iff, ih]
    constructor
    · rintro (⟨r, hr⟩ | ⟨l, r, hr⟩)
      · exact ⟨[], r, by simpa using hr⟩
      · exact ⟨c :: l, r, by simp [hr]⟩
    · rintro ⟨l, r, hr⟩
      cases l with
      | nil =>
        exact Or.inl ⟨r, by simpa using hr⟩
      | cons x xs =>
        right
        have hx : c = x ∧ cs = xs ++ pat ++ r := by
          simpa using hr
        exact ⟨xs, r, hx.2⟩

theorem jsIncludes_iff (s pat : String) :
    jsIncludes s pat = true ↔ HasSubstr s pat := by
  unfold jsIncludes HasSubstr
  rw [subOcc_iff]

/-- Claim C5: `validateApiKey(key)` returns true iff `key` is a non-empty
string of length strictly greater than 10 containing neither the substring
`your_` nor the substring `example`; in particular it is false on `""`,
false on `null`, false on `"your_api_key_here"`, and true on
`"valid-api-key-12345"`. -/
theorem validateApiKey_spec :
    (∀ key : Option String,
      validateApiKey key = true ↔
        ∃ k, key = some k ∧ k ≠ "" ∧ 10 < k.length ∧
          ¬ HasSubstr k "your_" ∧ ¬ HasSubstr k "example") ∧
    validateApiKey (some "") = false ∧
    validateApiKey none = false ∧
    validateApiKey (some "your_api_key_here") = false ∧
    validateApiKey (some "valid-api-key-12345") = true := by
  refine ⟨?_, by decide, rfl, by decide, by decide⟩
  intro key
  cases key with
  | none =>
    simp [validateApiKey]
  | some k =>
    by_cases hk : k = ""
    · subst hk
      simp [validateApiKey]
    · simp only [validateApiKey, if_neg hk, Bool.and_eq_true, Bool.not_eq_true',
        decide_eq_true_eq]
      constructor
      · rintro ⟨⟨hlen, hy⟩, he⟩
        refine ⟨k, rfl, hk, hlen, ?_, ?_⟩
        · intro h
          rw [← jsIncludes_iff] at h
          simp [h] at hy
        · intro h
          rw [← jsIncludes_iff] at h
          simp [h] at he
      · rintro ⟨k', hk', _, hlen, hy, he⟩
        cases Option.some.injEq .. ▸ hk' with
        | refl =>
          refine ⟨⟨hlen, ?_⟩, ?_⟩
          · cases hb : jsIncludes k "your_" with
            | false => rfl
            | true => exact absurd ((jsIncludes_iff k "your_").mp hb) hy
          · cases hb : jsIncludes k "example" with
            | false => rfl
            | true => exact absurd ((jsIncludes_iff k "example").mp hb) he

/-- Claim C1: the factory returns the Mock backend whenever the mode is
`mock`, or the credential is invalid, or the environment is the test
environment; it returns the Real backend exactly when the mode is `staging`
or `prod`, the credential is valid and the environment is not `test`; any
other (unrecognized) mode falls back to Mock.  The first conjunct records
that the selection is total (a client is returned on every path — the
source never throws for misconfiguration). -/
theorem createRapidApiClient_spec :
    ∀ cfg : FactoryConfig,
      (createRapidApiClient cfg = Backend.mock ∨ createRapidApiClient cfg = Backend.real) ∧
      (createRapidApiClient cfg = Backend.real ↔
        ((cfg.mode = "staging" ∨ cfg.mode = "prod") ∧
          validateApiKey cfg.rapidApiKey = true ∧ cfg.nodeEnv ≠ "test")) ∧
      (createRapidApiClient cfg = Backend.mock ↔
        (cfg.mode = "mock" ∨ validateApiKey cfg.rapidApiKey = false ∨ cfg.nodeEnv = "test" ∨
          (cfg.mode ≠ "staging" ∧ cfg.mode ≠ "prod"))) := by
  intro cfg
  simp only [createRapidApiClient]
  by_cases hm : cfg.mode = "mock" <;>
    by_cases hv : validateApiKey cfg.rapidApiKey = true <;>
      by_cases he : cfg.nodeEnv = "test" <;>
        by_cases hs : cfg.mode = "staging" <;>
          by_cases hp : cfg.mode = "prod" <;>
            simp_all

/-- Claim C9 (code bug): with an unrecognized mode, a valid key and a
non-test environment, `createRapidApiClient` falls back to the Mock backend
while `getClientInfo().clientType` reports `real` — the reported selection
disagrees with the backend actually selected. -/
theorem clientInfo_disagrees_with_factory :
    createRapidApiClient
        { mode := "development", rapidApiKey := some "valid-api-key-12345",
          nodeEnv := "production" } = Backend.mock ∧
    clientInfoClientType
        { mode := "development", rapidApiKey := some "valid-api-key-12345",
          nodeEnv := "production" } = "real" := by
  constructor <;> decide

theorem subOcc_nil_pat (l : List Char) : subOcc [] l = true := by
  cases l <;> simp [subOcc, listStarts]

theorem ciIncludes_empty (s : String) : ciIncludes s "" = true :=
  subOcc_nil_pat ((toLowerStr s).data)

/-- The results list of a mock search, for every (possibly empty) location
and every crime-type argument, is exactly the filter of the fixed dataset
by the ANDed case-insensitive containment predicates: a skipped filter (the
falsy-guard on an empty string) coincides with filtering by the empty
pattern, which every record contains. -/
theorem searchCrimeData_results_eq (loc : String) (ct : Option String) :
    (searchCrimeData (some loc) ct).results =
      mockCrimeData.filter (fun r =>
        ciIncludes r.location loc &&
          (match ct with
            | none => true
            | some c => ciIncludes r.type c)) := by
  by_cases hl : loc = ""
  · subst hl
    cases ct with
    | none =>
      have hp : (fun r : CrimeRecord =>
          ciIncludes r.location "" &&
            (match (none : Option String) with
              | none => true
              | some c => ciIncludes r.type c)) = fun _ => true := by
        funext r
        simp [ciIncludes_empty]
      rw [hp, List.filter_true]
      rfl
    | some c =>
      by_cases hc : c = ""
      · subst hc
        have hp : (fun r : CrimeRecord =>
            ciIncludes r.location "" &&
              (match (some "" : Option String) with
                | none => true
                | some c => ciIncludes r.type c)) = fun _ => true := by
          funext r
          simp [ciIncludes_empty]
        rw [hp, List.filter_true]
        rfl
      · have hp : (fun r : CrimeRecord =>
            ciIncludes r.location "" &&
              (match (some c : Option String) with
                | none => true
                | some c => ciIncludes r.type c)) =
            fun r : CrimeRecord => ciIncludes r.type c := by
          funext r
          simp [ciIncludes_empty]
        rw [hp]
        simp [searchCrimeData, hc]
  · cases ct with
    | none =>
      have hp : (fun r : CrimeRecord =>
          ciIncludes r.location loc &&
            (match (none : Option String) with
              | none => true
              | some c => ciIncludes r.type c)) =
          fun r : CrimeRecord => ciIncludes r.location loc := by
        funext r
        simp
      rw [hp]
      simp [searchCrimeData, hl]
    | some c =>
      by_cases hc : c = ""
      · subst hc
        have hp : (fun r : CrimeRecord =>
            ciIncludes r.location loc &&
              (match (some "" : Option String) with
                | none => true
                | some c => ciIncludes r.type c)) =
            fun r : CrimeRecord => ciIncludes r.location loc := by
          funext r
          simp [ciIncludes_empty]
        rw [hp]
        simp [searchCrimeData, hl]
      · have hcode : (searchCrimeData (some loc) (some c)).results =
            (mockCrimeData.filter (fun i => ciIncludes i.location loc)).filter
              (fun i => ciIncludes i.type c) := by
          simp [searchCrimeData, hl, hc]
        rw [hcode, List.filter_filter]
        exact List.filter_congr (fun r _ => Bool.and_comm ..)

/-- Claim C6: the mock `searchCrimeData(location, crimeType)` returns
`success:true, results, total = results.length, mock:true` where `results`
are exactly the fixed dataset's records whose location contains `location`
case-insensitively and, when a crime type is given, whose type contains it
case-insensitively (both filters ANDed); `ciIncludes` is tied to the
specification-side containment predicate, and the location
`nonexistent-location` yields an empty results list with `success` still
true. -/
theorem searchCrimeData_spec :
    (∀ (loc : String) (ct : Option String),
      (searchCrimeData (some loc) ct).success = true ∧
      (searchCrimeData (some loc) ct).mock = true ∧
      (searchCrimeData (some loc) ct).total = (searchCrimeData (some loc) ct).results.length ∧
      (searchCrimeData (some loc) ct).results =
        mockCrimeData.filter (fun r =>
          ciIncludes r.location loc &&
            (match ct with
              | none => true
              | some c => ciIncludes r.type c))) ∧
    (∀ s pat : String, ciIncludes s pat = true ↔ HasSubstr (toLowerStr s) (toLowerStr pat)) ∧
    (searchCrimeData (some "nonexistent-location") none).success = true ∧
    (searchCrimeData (some "nonexistent-location") none).results = [] := by
  refine ⟨?_, ?_, by decide, by decide⟩
  · intro loc ct
    refine ⟨rfl, rfl, rfl, searchCrimeData_results_eq loc ct⟩
  · intro s pat
    exact jsIncludes_iff (toLowerStr s) (toLowerStr pat)

/-- Claim C7: in mock mode, requesting `INC-001` returns the fixed detail
record wrapped as `success:true, data, mock:true` with HTTP 200;
requesting `INC-999` (absent from the detail dataset) produces a backend
error whose message contains `not found`, which the controller maps to 404
with body error `Incident not found`; a backend failure whose message does
not contain `not found` maps to a generic 5xx status. -/
theorem incidentPipeline_spec :
    incidentPipeline "INC-001" =
      { status := 200, errorMsg := none,
        data := some { success := true, data := DetailData.record inc001Detail, mock := true } } ∧
    (getIncidentDetails "INC-999" = Except.error "Incident INC-999 not found" ∧
      jsIncludes "Incident INC-999 not found" "not found" = true) ∧
    incidentPipeline "INC-999" =
      { status := 404, errorMsg := some "Incident not found", data := none } ∧
    (∀ msg : String, jsIncludes msg "not found" = false →
      500 ≤ (controllerOnDetailOutcome (Except.error msg)).status ∧
        (controllerOnDetailOutcome (Except.error msg)).status < 600) := by
  refine ⟨by rfl, ⟨by rfl, by decide⟩, by rfl, ?_⟩
  intro msg hmsg
  simp [controllerOnDetailOutcome, errorHandlerStatus, hmsg]

/-- Witness for C7's hypothesised conjunct at the concrete backend failure
message `upstream timeout`. -/
theorem incidentPipeline_spec_witness :
    jsIncludes "upstream timeout" "not found" = false ∧
    (500 ≤ (controllerOnDetailOutcome (Except.error "upstream timeout")).status ∧
      (controllerOnDetailOutcome (Except.error "upstream timeout")).status < 600) :=
  ⟨by decide, incidentPipeline_spec.2.2.2 "upstream timeout" (by decide)⟩

/-- Counterexample to claim C10 as stated: `getIncidentDetails` does not
fail on every id other than `INC-001`/`INC-002` — the id `constructor`
names an inherited `Object.prototype` property, so the bracket lookup is
truthy and the call succeeds. -/
theorem getIncidentDetails_constructor_succeeds :
    (getIncidentDetails "constructor").isOk = true ∧
    "constructor" ≠ "INC-001" ∧ "constructor" ≠ "INC-002" := by
  refine ⟨by rfl, by decide, by decide⟩

/-- Claim C10 (amended): `getIncidentDetails(id)` succeeds exactly when
`id` is `INC-001` or `INC-002` or an inherited `Object.prototype` property
name (a JavaScript prototype-chain artifact of the object lookup), and
fails with a not-found error for every other id; in particular `INC-003`
is an id in the search dataset with no detail entry, so not every incident
id returned by the search operation is retrievable through the
incident-detail operation. -/
theorem getIncidentDetails_success_iff :
    (∀ incidentId : String,
      (getIncidentDetails incidentId).isOk = true ↔
        (incidentId = "INC-001" ∨ incidentId = "INC-002" ∨
          incidentId ∈ objectPrototypeProps)) ∧
    "INC-003" ∈ mockCrimeData.map CrimeRecord.id ∧
    (getIncidentDetails "INC-003").isOk = false ∧
    getIncidentDetails "INC-003" = Except.error "Incident INC-003 not found" := by
  refine ⟨?_, by decide, by rfl, by rfl⟩
  intro incidentId
  by_cases h1 : incidentId = "INC-001"
  · subst h1
    simp [getIncidentDetails, lookupOwn, Except.isOk, Except.toBool]
  · by_cases h2 : incidentId = "INC-002"
    · subst h2
      simp [getIncidentDetails, lookupOwn, Except.isOk, Except.toBool]
    · by_cases h3 : incidentId ∈ objectPrototypeProps
      · simp [getIncidentDetails, lookupOwn, h1, h2, h3, Except.isOk, Except.toBool]
      · simp [getIncidentDetails, lookupOwn, h1, h2, h3, Except.isOk, Except.toBool]

theorem dropWhile_head_not (p : Char → Bool) (l : List Char) :
    ∀ c, (l.dropWhile p).head? = some c → p c = false := by
  induction l with
  | nil =>
    intro c h
    simp [List.dropWhile] at h
  | cons a as ih =>
    intro c h
    rw [List.dropWhile_cons] at h
    by_cases ha : p a = true
    · rw [if_pos ha] at h
      exact ih c h
    · rw [if_neg ha] at h
      have hac : a = c := by simpa using h
      subst hac
      exact Bool.not_eq_true (p a) ▸ ha

theorem dropWhile_eq_self_of_head (p : Char → Bool) (l : List Char)
    (h : ∀ c, l.head? = some c → p c = false) : l.dropWhile p = l := by
  cases l with
  | nil => rfl
  | cons a as =>
    have ha := h a rfl
    simp [List.dropWhile_cons, ha]

theorem getLast?_dropWhile (p : Char → Bool) (l : List Char) :
    l.dropWhile p = [] ∨ (l.dropWhile p).getLast? = l.getLast? := by
  induction l with
  | nil =>
    left
    rfl
  | cons a as ih =>
    rw [List.dropWhile_cons]
    by_cases ha : p a = true
    · rw [if_pos ha]
      by_cases hnil : as.dropWhile p = []
      · left
        exact hnil
      · right
        cases ih with
        | inl h => exact absurd h hnil
        | inr h =>
          rw [h]
          have hasne : as ≠ [] := by
            intro hh
            subst hh
            exact hnil rfl
          cases as with
          | nil => exact absurd rfl hasne
          | cons b bs => rw [List.getLast?_cons_cons]
    · rw [if_neg ha]
      right
      rfl

theorem trimList_trimmed_head (s : List Char) :
    ∀ c, (trimList s).head? = some c → isJsWs c = false := by
  intro c h
  unfold trimList at h
  rw [List.head?_reverse] at h
  rcases getLast?_dropWhile isJsWs ((s.dropWhile isJsWs).reverse) with hnil | hl
  · rw [hnil] at h
    cases h
  · rw [hl, List.getLast?_reverse] at h
    exact dropWhile_head_not isJsWs s c h

theorem trimList_trimmed_last (s : List Char) :
    ∀ c, (trimList s).getLast? = some c → isJsWs c = false := by
  intro c h
  unfold trimList at h
  rw [List.getLast?_reverse] at h
  exact dropWhile_head_not isJsWs _ c h

theorem trimList_eq_self (l : List Char)
    (h1 : ∀ c, l.head? = some c → isJsWs c = false)
    (h2 : ∀ c, l.getLast? = some c → isJsWs c = false) :
    trimList l = l := by
  unfold trimList
  rw [dropWhile_eq_self_of_head isJsWs l h1,
    dropWhile_eq_self_of_head isJsWs l.reverse
      (fun c hc => h2 c (by rwa [List.head?_reverse] at hc))]
  exact List.reverse_reverse l

theorem stripAngle_eq_self (l : List Char) (h : ∀ c ∈ l, isAngle c = false) :
    stripAngle l = l :=
  List.filter_eq_self.mpr (fun a ha => by simp [h a ha])

theorem stripJSF_eq_self (l : List Char) (h : hasJS l = false) :
    ∀ f, stripJSF f l = l := by
  induction l with
  | nil =>
    intro f
    cases f <;> rfl
  | cons c cs ih =>
    intro f
    have hh : ciStarts jsPat (c :: cs) = false ∧ hasJS cs = false := by
      simpa [hasJS] using h
    cases f with
    | zero => rfl
    | succ f => simp [stripJSF, hh.1, ih hh.2 f]

theorem stripJS_eq_self (l : List Char) (h : hasJS l = false) : stripJS l = l :=
  stripJSF_eq_self l h l.length

theorem stripHandlerF_eq_self (l : List Char) (h : hasHandler l = false) :
    ∀ f, stripHandlerF f l = l := by
  induction l with
  | nil =>
    intro f
    cases f <;> rfl
  | cons c cs ih =>
    intro f
    have hh : (matchOn (c :: cs)).isSome = false ∧ hasHandler cs = false := by
      simpa [hasHandler] using h
    have hm : matchOn (c :: cs) = none := Option.not_isSome_iff_eq_none.mp (by simp [hh.1])
    cases f with
    | zero => rfl
    | succ f => simp [stripHandlerF, hm, ih hh.2 f]

theorem stripHandler_eq_self (l : List Char) (h : hasHandler l = false) :
    stripHandler l = l :=
  stripHandlerF_eq_self l h l.length

/-- One sanitizer pass is a fixed point of a further pass as soon as its
output contains none of the stripped patterns; the output is always
trimmed, so only the pattern conditions are needed. -/
theorem sanitizeList_idem_of_stable (l : List Char)
    (hA : ∀ c ∈ sanitizeList l, isAngle c = false)
    (hJ : hasJS (sanitizeList l) = false)
    (hH : hasHandler (sanitizeList l) = false) :
    sanitizeList (sanitizeList l) = sanitizeList l := by
  have h1 : sanitizeList (sanitizeList l) =
      trimList (stripHandler (stripJS (stripAngle (sanitizeList l)))) := rfl
  rw [h1, stripAngle_eq_self _ hA, stripJS_eq_self _ hJ, stripHandler_eq_self _ hH]
  exact trimList_eq_self _
    (fun c hc => trimList_trimmed_head (stripHandler (stripJS (stripAngle l))) c hc)
    (fun c hc => trimList_trimmed_last (stripHandler (stripJS (stripAngle l))) c hc)

/-- Counterexample to claim C8 as stated: the sanitizer is not idempotent.
Removing the leftmost case-insensitive `javascript:` occurrence from
`jjavascript:avascript:` splices the surrounding fragments into a fresh
`javascript:`, which only a second pass removes. -/
theorem sanitizeInput_not_idempotent :
    sanitizeInput (sanitizeInput "jjavascript:avascript:") ≠
      sanitizeInput "jjavascript:avascript:" ∧
    sanitizeInput "jjavascript:avascript:" = "javascript:" ∧
    sanitizeInput (sanitizeInput "jjavascript:avascript:") = "" := by
  refine ⟨by decide, by decide, by decide⟩

/-- Claim C8 (amended): `sanitizeInput` (remove angle brackets, strip
case-insensitive `javascript:` occurrences, strip inline event-handler
`on\w+=` patterns, trim) is idempotent on every string whose sanitized
form contains no angle bracket, no residual `javascript:` occurrence and
no residual `on\w+=` pattern; in general a single pass can splice removed
fragments into a new pattern occurrence, so unconditional idempotence
fails. -/
theorem sanitizeInput_idem_of_stable (s : String)
    (hA : ∀ c ∈ sanitizeList s.data, isAngle c = false)
    (hJ : hasJS (sanitizeList s.data) = false)
    (hH : hasHandler (sanitizeList s.data) = false) :
    sanitizeInput (sanitizeInput s) = sanitizeInput s :=
  congrArg String.mk (sanitizeList_idem_of_stable s.data hA hJ hH)

/-- Witness for the amended C8 at the concrete input `"  hello world  "`. -/
theorem sanitizeInput_idem_of_stable_witness :
    (∀ c ∈ sanitizeList ("  hello world  " : String).data, isAngle c = false) ∧
    hasJS (sanitizeList ("  hello world  " : String).data) = false ∧
    hasHandler (sanitizeList ("  hello world  " : String).data) = false ∧
    sanitizeInput (sanitizeInput "  hello world  ") = sanitizeInput "  hello world  " :=
  ⟨by decide, by decide, by decide,
    sanitizeInput_idem_of_stable "  hello world  " (by decide) (by decide) (by decide)⟩

theorem runRetry_attempts_pos {E R : Type} (o : Nat → Except E R) (j : Nat → ℚ) (b : ℚ) :
    ∀ rem a, 1 ≤ (runRetry o j b rem a).2.1 := by
  intro rem a
  cases rem with
  | zero => simp [runRetry]
  | succ rem =>
    cases h : o a with
    | ok r => simp [runRetry, h]
    | error e => simp [runRetry, h]

theorem runRetry_attempts_le {E R : Type} (o : Nat → Except E R) (j : Nat → ℚ) (b : ℚ) :
    ∀ rem a, (runRetry o j b rem a).2.1 ≤ rem + 1 := by
  intro rem
  induction rem with
  | zero =>
    intro a
    simp [runRetry]
  | succ rem ih =>
    intro a
    cases h : o a with
    | ok r => simp [runRetry, h]
    | error e =>
      have hle := ih (a + 1)
      simp only [runRetry, h]
      omega

theorem runRetry_delays {E R : Type} (o : Nat → Except E R) (j : Nat → ℚ) (b : ℚ) :
    ∀ rem a, (runRetry o j b rem a).2.2 =
      (List.range ((runRetry o j b rem a).2.1 - 1)).map
        (fun i => backoffDelay b (a + i) (j (a + i))) := by
  intro rem
  induction rem with
  | zero =>
    intro a
    simp [runRetry]
  | succ rem ih =>
    intro a
    cases h : o a with
    | ok r => simp [runRetry, h]
    | error e =>
      have hpos := runRetry_attempts_pos o j b rem (a + 1)
      simp only [runRetry, h]
      obtain ⟨n, hn⟩ : ∃ n, (runRetry o j b rem (a + 1)).2.1 = n + 1 :=
        ⟨(runRetry o j b rem (a + 1)).2.1 - 1, by omega⟩
      have hrec := ih (a + 1)
      rw [hn] at hrec
      simp only [hn, Nat.add_sub_cancel, hrec, List.range_succ_eq_map, List.map_cons,
        List.map_map]
      congr 1
      apply List.map_congr_left
      intro i hi
      have hidx : a + 1 + i = a + Nat.succ i := by omega
      simp only [Function.comp_apply, hidx]

theorem runRetry_first_success {E R : Type} (o : Nat → Except E R) (j : Nat → ℚ) (b : ℚ) :
    ∀ k rem a, k ≤ rem →
      (∀ i, i < k → ∃ e, o (a + i) = Except.error e) →
      ∀ r, o (a + k) = Except.ok r →
        (runRetry o j b rem a).1 = Except.ok r ∧ (runRetry o j b rem a).2.1 = k + 1 := by
  intro k
  induction k with
  | zero =>
    intro rem a _ _ r hr
    rw [Nat.add_zero] at hr
    cases rem with
    | zero => simp [runRetry, hr]
    | succ rem => simp [runRetry, hr]
  | succ k ih =>
    intro rem a hk hfail r hr
    obtain ⟨rem', rfl⟩ : ∃ rem', rem = rem' + 1 := ⟨rem - 1, by omega⟩
    obtain ⟨e0, he0⟩ := hfail 0 (Nat.succ_pos k)
    rw [Nat.add_zero] at he0
    have hrec := ih rem' (a + 1) (by omega)
      (fun i hi => by
        obtain ⟨e, he⟩ := hfail (i + 1) (by omega)
        exact ⟨e, by rwa [Nat.add_comm i 1, ← Nat.add_assoc] at he⟩)
      r (by rwa [Nat.add_comm k 1, ← Nat.add_assoc] at hr)
    simp only [runRetry, he0]
    exact ⟨hrec.1, by rw [hrec.2]⟩

theorem runRetry_all_fail {E R : Type} (o : Nat → Except E R) (j : Nat → ℚ) (b : ℚ) :
    ∀ rem a, (∀ i, i ≤ rem → ∃ e, o (a + i) = Except.error e) →
      (runRetry o j b rem a).1 = o (a + rem) ∧ (runRetry o j b rem a).2.1 = rem + 1 := by
  intro rem
  induction rem with
  | zero =>
    intro a _
    simp [runRetry]
  | succ rem ih =>
    intro a hfail
    obtain ⟨e0, he0⟩ := hfail 0 (Nat.zero_le _)
    rw [Nat.add_zero] at he0
    have hrec := ih (a + 1) (fun i hi => by
      obtain ⟨e, he⟩ := hfail (i + 1) (by omega)
      exact ⟨e, by rwa [Nat.add_comm i 1, ← Nat.add_assoc] at he⟩)
    simp only [runRetry, he0]
    refine ⟨?_, by rw [hrec.2]⟩
    rw [hrec.1, Nat.add_comm rem 1, ← Nat.add_assoc]

/-- Claim C4: `requestWithRetry` makes at most `maxRetries + 1` attempts;
each attempt uses an 8000ms timeout when the caller specifies none; the
sleeps between attempts are exactly
`min(baseDelay * 2^n + jitter_n, 3000)` for the 0-based failed attempts
`n`, with the jitter range `[0, 100)` bounding each delay; the first
successful attempt's response is returned; and if every attempt fails the
last attempt's error is propagated. -/
theorem requestWithRetry_spec {E R : Type} (outcome : Nat → Except E R) (jit : Nat → ℚ)
    (maxRetries : Nat) (baseDelay : ℚ) :
    (requestWithRetry outcome jit maxRetries baseDelay).2.1 ≤ maxRetries + 1 ∧
    (∀ options : AxiosOptions, options.timeout = none →
      (requestOptions options).timeout = some 8000) ∧
    (requestWithRetry outcome jit maxRetries baseDelay).2.2 =
      (List.range ((requestWithRetry outcome jit maxRetries baseDelay).2.1 - 1)).map
        (fun n => backoffDelay baseDelay n (jit n)) ∧
    ((∀ n, 0 ≤ jit n ∧ jit n < 100) →
      ∀ n, min (baseDelay * 2 ^ n) 3000 ≤ backoffDelay baseDelay n (jit n) ∧
        backoffDelay baseDelay n (jit n) ≤ min (baseDelay * 2 ^ n + 100) 3000) ∧
    (∀ k r, k ≤ maxRetries →
      (∀ i, i < k → ∃ e, outcome i = Except.error e) →
      outcome k = Except.ok r →
      (requestWithRetry outcome jit maxRetries baseDelay).1 = Except.ok r ∧
        (requestWithRetry outcome jit maxRetries baseDelay).2.1 = k + 1) ∧
    ((∀ i, i ≤ maxRetries → ∃ e, outcome i = Except.error e) →
      (requestWithRetry outcome jit maxRetries baseDelay).1 = outcome maxRetries ∧
        (requestWithRetry outcome jit maxRetries baseDelay).2.1 = maxRetries + 1) := by
  refine ⟨runRetry_attempts_le outcome jit baseDelay maxRetries 0,
    ?_, ?_, ?_, ?_, ?_⟩
  · intro options h
    simp [requestOptions, h]
  · have h := runRetry_delays outcome jit baseDelay maxRetries 0
    simpa [requestWithRetry] using h
  · intro hj n
    constructor
    · exact min_le_min (by linarith [(hj n).1]) le_rfl
    · exact min_le_min (by linarith [(hj n).2]) le_rfl
  · intro k r hk hfail hr
    have h := runRetry_first_success outcome jit baseDelay k maxRetries 0 hk
      (fun i hi => by simpa using hfail i hi) r (by simpa using hr)
    exact h
  · intro hfail
    have h := runRetry_all_fail outcome jit baseDelay maxRetries 0
      (fun i hi => by simpa using hfail i hi)
    simpa [requestWithRetry] using h

/-- Witness for C4 at the concrete flaky outcome (two failures then a
success), jitter 50, `maxRetries = 3`, `baseDelay = 200`. -/
theorem requestWithRetry_spec_witness :
    (2 ≤ 3 ∧
      (∀ i, i < 2 → ∃ e, flakyOutcome i = Except.error e) ∧
      flakyOutcome 2 = Except.ok "resp") ∧
    (requestWithRetry flakyOutcome (fun _ => 50) 3 200).1 = Except.ok "resp" ∧
    (requestWithRetry flakyOutcome (fun _ => 50) 3 200).2.1 = 2 + 1 := by
  have hfail : ∀ i, i < 2 → ∃ e, flakyOutcome i = Except.error e := by
    intro i hi
    exact ⟨"fail", by simp [flakyOutcome, hi]⟩
  have hok : flakyOutcome 2 = Except.ok "resp" := rfl
  have h := (requestWithRetry_spec flakyOutcome (fun _ => 50) 3 200).2.2.2.2.1
    2 "resp" (by decide) hfail hok
  exact ⟨⟨by decide, hfail, hok⟩, h.1, h.2⟩

theorem retryAfterOf_eq_ceil (w : Nat) :
    retryAfterOf w = ⌈(w : ℚ) / 1000⌉₊ := by
  rcases Nat.eq_zero_or_pos w with hw | hw
  · subst hw
    simp [retryAfterOf]
  · unfold retryAfterOf
    have hne : (w + 999) / 1000 ≠ 0 := by omega
    rw [eq_comm, Nat.ceil_eq_iff hne]
    constructor
    · rw [lt_div_iff₀ (by norm_num : (0:ℚ) < 1000)]
      have h2 : ((w + 999) / 1000 - 1) * 1000 < w := by omega
      exact_mod_cast h2
    · rw [div_le_iff₀ (by norm_num : (0:ℚ) < 1000)]
      have h1 : w ≤ ((w + 999) / 1000) * 1000 := by omega
      exact_mod_cast h1

theorem runLimiter_decisions (maxReq windowMs : Nat) (hw : 0 < windowMs) (t0 : Nat) :
    ∀ (ts : List Nat) (k : Nat),
      (∀ t ∈ ts, t < t0 + windowMs) →
      (runLimiter maxReq windowMs ts (some { count := k, windowStart := t0 })).2 =
        (List.range ts.length).map
          (fun i => if maxReq < k + i + 1 then some (retryAfterOf windowMs) else none) := by
  intro ts
  induction ts with
  | nil =>
    intro k _
    simp [runLimiter]
  | cons t ts ih =>
    intro k h
    have ht : t < t0 + windowMs := h t (List.mem_cons_self t ts)
    have hnoreset : ¬ (windowMs ≤ t - t0) := by omega
    have htc : touchCounter windowMs t (some { count := k, windowStart := t0 }) =
        { count := k + 1, windowStart := t0 } := by
      simp [touchCounter, hnoreset]
    simp only [runLimiter, htc]
    rw [ih (k + 1) (fun x hx => h x (List.mem_cons_of_mem t hx))]
    simp only [List.length_cons, List.range_succ_eq_map, List.map_cons, List.map_map]
    congr 1
    apply List.map_congr_left
    intro i _
    simp only [Function.comp_apply]
    exact if_congr (by omega) rfl rfl

theorem runLimiter_from_none (maxReq windowMs : Nat) (hw : 0 < windowMs) (t0 : Nat)
    (ts : List Nat) (h : ∀ t ∈ ts, t < t0 + windowMs) :
    (runLimiter maxReq windowMs (t0 :: ts) none).2 =
      (List.range (ts.length + 1)).map
        (fun i => if maxReq < i + 1 then some (retryAfterOf windowMs) else none) := by
  have htc : touchCounter windowMs t0 none = { count := 1, windowStart := t0 } := rfl
  simp only [runLimiter, htc]
  rw [runLimiter_decisions maxReq windowMs hw t0 ts 1 h]
  simp only [List.range_succ_eq_map, List.map_cons, List.map_map]
  congr 1
  apply List.map_congr_left
  intro i _
  simp only [Function.comp_apply]
  exact if_congr (by omega) rfl rfl

theorem runLimiter_admit_then_reject (maxReq windowMs : Nat) (hw : 0 < windowMs)
    (t0 : Nat) (ts : List Nat) (h : ∀ t ∈ ts, t < t0 + windowMs)
    (hlen : ts.length = maxReq) :
    (runLimiter maxReq windowMs (t0 :: ts) none).2 =
      List.replicate maxReq none ++ [some (retryAfterOf windowMs)] := by
  rw [runLimiter_from_none maxReq windowMs hw t0 ts h, hlen, List.range_succ,
    List.map_append]
  congr 1
  · refine List.eq_replicate_iff.mpr ⟨by simp, ?_⟩
    intro b hb
    simp only [List.mem_map, List.mem_range] at hb
    obtain ⟨i, hi, rfl⟩ := hb
    have : ¬ (maxReq < i + 1) := by omega
    simp [this]
  · simp

/-- Claim C3: for one client IP and each tier (general / search / detail,
with maxima `maxRequests`, `maxRequests / 2`, `maxRequests / 4` over the
same window), the first tierMax requests inside one window are all
admitted and the (tierMax+1)-th is rejected with a 429 carrying
`retryAfter = ceil(windowMs / 1000)` seconds, a positive value; a rejected
request is not forwarded (the backend is never invoked). -/
theorem rateLimiter_window_spec :
    ∀ (cfg : RateLimitConfig) (tier : RateLimitConfig) (t0 : Nat) (ts : List Nat),
      0 < cfg.windowMs →
      (tier = (rateLimiters cfg).general ∨ tier = (rateLimiters cfg).search ∨
        tier = (rateLimiters cfg).details) →
      (∀ t ∈ ts, t < t0 + cfg.windowMs) →
      ts.length = tier.maxRequests →
      ((runLimiter tier.maxRequests tier.windowMs (t0 :: ts) none).2 =
        List.replicate tier.maxRequests none ++ [some (retryAfterOf cfg.windowMs)]) ∧
      retryAfterOf cfg.windowMs = ⌈(cfg.windowMs : ℚ) / 1000⌉₊ ∧
      0 < retryAfterOf cfg.windowMs ∧
      tier.windowMs = cfg.windowMs ∧
      ((rateLimiters cfg).general.maxRequests = cfg.maxRequests ∧
        (rateLimiters cfg).search.maxRequests = cfg.maxRequests / 2 ∧
        (rateLimiters cfg).details.maxRequests = cfg.maxRequests / 4) ∧
      (∀ (now : Nat) (req : SearchRequest) (g s : String → Option Counter),
        limiterDecision (rateLimiters cfg).general.maxRequests cfg.windowMs
          (touchCounter cfg.windowMs now (g req.ip)) = none →
        (rateLimiters cfg).search.maxRequests <
          (touchCounter cfg.windowMs now (s req.ip)).count →
        (searchPipeline cfg now req g s).response =
          SearchResponse.rateLimited (retryAfterOf cfg.windowMs) ∧
        (searchPipeline cfg now req g s).backendCalled = false) := by
  intro cfg tier t0 ts hw htier hts hlen
  have hwin : tier.windowMs = cfg.windowMs := by
    rcases htier with h | h | h <;> subst h <;> rfl
  refine ⟨?_, retryAfterOf_eq_ceil cfg.windowMs, by unfold retryAfterOf; omega, hwin,
    ⟨rfl, rfl, rfl⟩, ?_⟩
  · rw [hwin]
    exact runLimiter_admit_then_reject tier.maxRequests cfg.windowMs hw t0 ts hts hlen
  · intro now req g s hg hs
    have hdec : limiterDecision (rateLimiters cfg).search.maxRequests cfg.windowMs
        (touchCounter cfg.windowMs now (s req.ip)) = some (retryAfterOf cfg.windowMs) := by
      simp [limiterDecision, hs]
    unfold searchPipeline
    simp only [hg, hdec]
    exact ⟨trivial, trivial⟩

/-- Witness for C3 at the search tier of a 60-second window with
`maxRequests = 4` (search maximum 2): three requests at times 0, 1, 2. -/
theorem rateLimiter_window_spec_witness :
    (0 < 60000 ∧ (∀ t ∈ [1, 2], t < 0 + 60000) ∧ ([1, 2] : List Nat).length = 2) ∧
    (runLimiter 2 60000 [0, 1, 2] none).2 =
      List.replicate 2 none ++ [some (retryAfterOf 60000)] ∧
    0 < retryAfterOf 60000 := by
  have h := rateLimiter_window_spec { windowMs := 60000, maxRequests := 4 }
    { windowMs := 60000, maxRequests := 2 } 0 [1, 2] (by decide)
    (Or.inr (Or.inl rfl)) (by decide) (by decide)
  exact ⟨⟨by decide, by decide, by decide⟩, h.1, h.2.2.1⟩

/-- Counterexample to claim C2 as stated: on a search request whose
location fails validation (`<script>alert(1)</script>`), the service does
respond 400 `Validation failed` and invokes no backend, but the rejection
happens after the rate-limit gates, not before them — both the general-
and search-tier counters for the client IP are created and incremented by
the rejected request (from absent to count 1). -/
theorem searchPipeline_counts_rejected_request :
    ((searchPipeline { windowMs := 900000, maxRequests := 100 } 0
        { ip := "203.0.113.7", location := some "<script>alert(1)</script>",
          crimeType := none }
        (fun _ => none) (fun _ => none)).response =
      SearchResponse.validationFailed
        [{ field := "location", message := "Location contains invalid characters" }]) ∧
    ((searchPipeline { windowMs := 900000, maxRequests := 100 } 0
        { ip := "203.0.113.7", location := some "<script>alert(1)</script>",
          crimeType := none }
        (fun _ => none) (fun _ => none)).backendCalled = false) ∧
    ((searchPipeline { windowMs := 900000, maxRequests := 100 } 0
        { ip := "203.0.113.7", location := some "<script>alert(1)</script>",
          crimeType := none }
        (fun _ => none) (fun _ => none)).searchStore "203.0.113.7" =
      some { count := 1, windowStart := 0 }) ∧
    ((searchPipeline { windowMs := 900000, maxRequests := 100 } 0
        { ip := "203.0.113.7", location := some "<script>alert(1)</script>",
          crimeType := none }
        (fun _ => none) (fun _ => none)).generalStore "203.0.113.7" =
      some { count := 1, windowStart := 0 }) ∧
    ((fun _ => none : String → Option Counter) "203.0.113.7" = none) := by
  refine ⟨by decide, by decide, by decide, by decide, rfl⟩

/-- Claim C2 (amended): for every search request whose parameters fail
validation, provided the request is not itself rate-limited (the two
rate-limit gates run first and admit it), the service responds 400 with
body `error: 'Validation failed'` and a non-empty details list, and no
backend is invoked; however the rejection happens after the Rate Limiter
gates, whose general- and search-tier counters are incremented by the
rejected request. -/
theorem searchPipeline_validation_spec :
    ∀ (cfg : RateLimitConfig) (now : Nat) (req : SearchRequest)
      (g s : String → Option Counter),
      searchValidationErrors req.location req.crimeType ≠ [] →
      limiterDecision (rateLimiters cfg).general.maxRequests cfg.windowMs
        (touchCounter cfg.windowMs now (g req.ip)) = none →
      limiterDecision (rateLimiters cfg).search.maxRequests cfg.windowMs
        (touchCounter cfg.windowMs now (s req.ip)) = none →
      (searchPipeline cfg now req g s).response =
        SearchResponse.validationFailed
          (searchValidationErrors req.location req.crimeType) ∧
      statusOf (searchPipeline cfg now req g s).response = 400 ∧
      bodyErrorOf (searchPipeline cfg now req g s).response = some "Validation failed" ∧
      (searchPipeline cfg now req g s).backendCalled = false ∧
      (searchPipeline cfg now req g s).searchStore req.ip =
        some (touchCounter cfg.windowMs now (s req.ip)) ∧
      (searchPipeline cfg now req g s).generalStore req.ip =
        some (touchCounter cfg.windowMs now (g req.ip)) ∧
      (∀ c, s req.ip = some c → now - c.windowStart < cfg.windowMs →
        (touchCounter cfg.windowMs now (s req.ip)).count = c.count + 1) ∧
      (s req.ip = none → (touchCounter cfg.windowMs now (s req.ip)).count = 1) := by
  intro cfg now req g s herr hg hs
  unfold searchPipeline
  simp only [hg, hs, if_neg herr]
  refine ⟨by trivial, by trivial, by trivial, by trivial, by simp, by simp, ?_, ?_⟩
  · intro c hc hwin
    have hnoreset : ¬ (cfg.windowMs ≤ now - c.windowStart) := by omega
    simp [touchCounter, hc, hnoreset]
  · intro hc
    simp [touchCounter, hc]

/-- Witness for the amended C2 at the concrete rejected request. -/
theorem searchPipeline_validation_spec_witness :
    (searchValidationErrors (some "<script>alert(1)</script>") none ≠ [] ∧
      limiterDecision 100 900000 (touchCounter 900000 0 none) = none ∧
      limiterDecision 50 900000 (touchCounter 900000 0 none) = none) ∧
    statusOf (searchPipeline { windowMs := 900000, maxRequests := 100 } 0
        { ip := "203.0.113.7", location := some "<script>alert(1)</script>",
          crimeType := none }
        (fun _ => none) (fun _ => none)).response = 400 ∧
    (searchPipeline { windowMs := 900000, maxRequests := 100 } 0
        { ip := "203.0.113.7", location := some "<script>alert(1)</script>",
          crimeType := none }
        (fun _ => none) (fun _ => none)).backendCalled = false := by
  have h := searchPipeline_validation_spec { windowMs := 900000, maxRequests := 100 } 0
    { ip := "203.0.113.7", location := some "<script>alert(1)</script>",
      crimeType := none }
    (fun _ => none) (fun _ => none) (by decide) (by decide) (by decide)
  exact ⟨⟨by decide, by decide, by decide⟩, h.2.1, h.2.2.2.1⟩

end PoliceRaider
